import Mathlib

/-!
Shallow embedding of the snackager storage abstraction layer:
the S3 and GCS storage clients, the backend selector, the config
environment loader, the S3 redirect utility and the artifact cache
(cacheSnackObj). Provider SDKs (aws-sdk S3, @google-cloud/storage) are
modelled as oracle functions passed in as parameters; a `none` / `.error`
outcome models a thrown provider error, which the source catches.
-/

/-- Node Buffer values only ever flow string → Buffer → string in this code
(`Buffer.from(string)` / `buffer.toString()` compose to the identity), so a
Buffer is modelled as the string it holds. -/
abbrev Buffer := String

/-- JavaScript truthiness of an optional environment-variable / option string:
`undefined` and the empty string are falsy, everything else truthy. -/
def truthy : Option String → Bool
  | none => false
  | some s => s != ""

/-- JavaScript `x || d` for an optional string `x`: the default is used when
`x` is `undefined` or falsy (empty). -/
def jsOr (o : Option String) (d : String) : String :=
  match o with
  | none => d
  | some s => if s == "" then d else s

/-- The `UploadResult` interface: `location`, `bucket`, `key`. -/
structure UploadResult where
  location : String
  bucket : String
  key : String
deriving DecidableEq

/-- The `UploadOptions` interface: all three fields optional. -/
structure UploadOptions where
  contentType : Option String := none
  cacheControl : Option String := none
  acl : Option String := none
deriving DecidableEq

/-- The `config.s3` section: `bucket`, `imports_bucket`, `region`. -/
structure S3Config where
  bucket : String
  imports_bucket : String
  region : String
deriving DecidableEq

/-- The parameter object the S3 client passes to `aws.S3.upload`. -/
structure S3UploadParams where
  Bucket : String
  Key : String
  Body : Buffer
  ACL : String
  CacheControl : String
  ContentType : Option String
deriving DecidableEq

/-- The fields of the `aws.S3.upload` response that the source reads:
`Location`, `Bucket`, `Key`. These come from the provider response object,
not from the request. -/
structure S3UploadResponse where
  Location : String
  Bucket : String
  Key : String
deriving DecidableEq

/-- The request `S3StorageClient.uploadFile` builds for `this.s3.upload`:
`ACL: options?.acl || "public-read"`,
`CacheControl: options?.cacheControl || "public, max-age=31536000"`,
`ContentType: options?.contentType`. -/
def S3StorageClient.uploadParams (bucket key : String) (body : Buffer)
    (options : Option UploadOptions) : S3UploadParams :=
  { Bucket := bucket
    Key := key
    Body := body
    ACL := jsOr (options.bind UploadOptions.acl) "public-read"
    CacheControl := jsOr (options.bind UploadOptions.cacheControl) "public, max-age=31536000"
    ContentType := options.bind UploadOptions.contentType }

/-- `S3StorageClient.uploadFile`: sends the built request to the provider
(`s3upload` oracle; `none` models a thrown error, which the source catches,
logs and turns into `undefined`). On success the returned `UploadResult`
copies `Location`, `Bucket` and `Key` from the provider response. -/
def S3StorageClient.uploadFile (s3upload : S3UploadParams → Option S3UploadResponse)
    (bucket key : String) (body : Buffer) (options : Option UploadOptions) :
    Option UploadResult :=
  match s3upload (S3StorageClient.uploadParams bucket key body options) with
  | none => none
  | some result =>
      some { location := result.Location, bucket := result.Bucket, key := result.Key }

/-- Hexadecimal digit character (uppercase), as produced by percent-encoding. -/
def hexChar (n : Nat) : Char :=
  if n < 10 then Char.ofNat (48 + n) else Char.ofNat (55 + n)

/-- UTF-8 byte sequence of a Unicode code point. -/
def utf8Bytes (n : Nat) : List Nat :=
  if n < 128 then [n]
  else if n < 2048 then [192 + n / 64, 128 + n % 64]
  else if n < 65536 then [224 + n / 4096, 128 + (n / 64) % 64, 128 + n % 64]
  else [240 + n / 262144, 128 + (n / 4096) % 64, 128 + (n / 64) % 64, 128 + n % 64]

/-- The characters ECMAScript `encodeURIComponent` leaves unescaped:
ASCII letters and digits plus `- _ . ! ~ * ( )` and the apostrophe
(code point 39). -/
def uriUnescaped (c : Char) : Bool :=
  c.isAlpha || c.isDigit ||
    ['-', '_', '.', '!', '~', '*', '(', ')', Char.ofNat 39].contains c

/-- ECMAScript `encodeURIComponent`: unescaped characters pass through,
every other character is written as the uppercase percent-encoding of its
UTF-8 bytes. -/
def encodeURIComponent (s : String) : String :=
  s.data.foldl
    (fun acc c =>
      if uriUnescaped c then acc.push c
      else acc ++ String.join ((utf8Bytes c.toNat).map
        (fun b => "%" ++ String.singleton (hexChar (b / 16)) ++ String.singleton (hexChar (b % 16)))))
    ""

/-- `S3StorageClient.getPublicUrl`: throws when `config.s3` is absent,
otherwise `https://s3-<region>.amazonaws.com/<bucket>/<encodeURIComponent(key)>`. -/
def S3StorageClient.getPublicUrl (s3cfg : Option S3Config) (bucket key : String) :
    Except String String :=
  match s3cfg with
  | none => Except.error "S3 configuration is required"
  | some cfg =>
      Except.ok ("https://s3-" ++ cfg.region ++ ".amazonaws.com/" ++ bucket ++ "/" ++
        encodeURIComponent key)

/-- The options object the GCS client passes to `file.save`: metadata
`cacheControl` (defaulted) and `contentType`, plus
`public: options?.acl === "public-read"` (field named `isPublic` here). -/
structure GCSSaveParams where
  bucket : String
  key : String
  body : Buffer
  cacheControl : String
  contentType : Option String
  isPublic : Bool
deriving DecidableEq

/-- The `file.save` request built by `GCSStorageClient.uploadFile`. -/
def GCSStorageClient.saveParams (bucket key : String) (body : Buffer)
    (options : Option UploadOptions) : GCSSaveParams :=
  { bucket := bucket
    key := key
    body := body
    cacheControl := jsOr (options.bind UploadOptions.cacheControl) "public, max-age=31536000"
    contentType := options.bind UploadOptions.contentType
    isPublic := options.bind UploadOptions.acl == some "public-read" }

/-- `GCSStorageClient.uploadFile`: saves via the `save` oracle, then, only
when `options?.acl === "public-read"`, performs the follow-up
`file.makePublic()` call. Any thrown error (`none` from an oracle) is caught
and turned into `undefined`. On success the `UploadResult` is built from the
caller arguments, with `location` embedding the key verbatim. -/
def GCSStorageClient.uploadFile (save : GCSSaveParams → Option Unit)
    (makePublic : String → String → Option Unit)
    (bucket key : String) (body : Buffer) (options : Option UploadOptions) :
    Option UploadResult :=
  match save (GCSStorageClient.saveParams bucket key body options) with
  | none => none
  | some _ =>
      match (if options.bind UploadOptions.acl == some "public-read"
             then makePublic bucket key else some ()) with
      | none => none
      | some _ =>
          some { location := "https://storage.googleapis.com/" ++ bucket ++ "/" ++ key
                 bucket := bucket
                 key := key }

/-- `GCSStorageClient.getPublicUrl`:
`https://storage.googleapis.com/<bucket>/<encodeURIComponent(key)>`. -/
def GCSStorageClient.getPublicUrl (bucket key : String) : String :=
  "https://storage.googleapis.com/" ++ bucket ++ "/" ++ encodeURIComponent key

/-- Backend selector (`const useGCS = !!process.env.GCS_PROJECT_ID || !!process.env.USE_GCS`).
The environment is a map from variable names to optional string values. -/
def useGCS (environ : String → Option String) : Bool :=
  truthy (environ "GCS_PROJECT_ID") || truthy (environ "USE_GCS")

/-- `config.storageBackend = useGCS ? "gcs" : "s3"`. -/
def config.storageBackend (environ : String → Option String) : String :=
  if useGCS environ then "gcs" else "s3"

/-- The `env(varName, testValue?)` helper of the config module: returns the
variable when truthy; otherwise, in test mode (`NODE_ENV === "test"`) or CLI
mode (`process.argv[1].endsWith("cli.js")`) returns `testValue ?? "noop"`,
and outside those modes throws. -/
def env (environ : String → Option String) (argv1 varName : String)
    (testValue : Option String) : Except String String :=
  let envVar := environ varName
  if truthy envVar then Except.ok (envVar.getD "")
  else
    if (environ "NODE_ENV" == some "test") || argv1.endsWith "cli.js"
    then Except.ok (testValue.getD "noop")
    else Except.error ("environment variable " ++ varName ++ " isn\x27t specified")

/-- A log event emitted by the source (`logger.warn` / `logger.error`),
recorded so that the logging behavior of `addS3Redirect` is observable. -/
inductive LogEvent where
  | warn (msg : String)
  | error (msg : String)
deriving DecidableEq

/-- The request `addS3Redirect` passes to `s3.putObject`. -/
structure PutObjectParams where
  Bucket : String
  Key : String
  Body : Buffer
  ACL : String
  CacheControl : String
  WebsiteRedirectLocation : String
deriving DecidableEq

/-- The raw `S3.PutObjectOutput` acknowledgment returned by the provider. -/
structure S3PutObjectOutput where
  ETag : Option String := none
deriving DecidableEq

/-- The `putObject` request built by `addS3Redirect`: zero-length body at
`key` in the configured bucket, ACL `public-read`, `no-cache`, website
redirect to `/<destination>`. -/
def addS3Redirect.params (cfg : S3Config) (key destination : String) : PutObjectParams :=
  { Bucket := cfg.bucket
    Key := key
    Body := ""
    ACL := "public-read"
    CacheControl := "no-cache"
    WebsiteRedirectLocation := "/" ++ destination }

/-- `addS3Redirect(key, destination)`: warns and returns `undefined` unless
the active backend is `s3` with `config.s3` present; otherwise sends the
redirect `putObject` request, returning the raw acknowledgment on success and
`undefined` (after an error log) when the provider throws. The second
component of the result collects the log events. -/
def addS3Redirect (putObject : PutObjectParams → Except String S3PutObjectOutput)
    (storageBackend : String) (s3cfg : Option S3Config) (key destination : String) :
    Option S3PutObjectOutput × List LogEvent :=
  if storageBackend != "s3" || s3cfg == none then
    (none, [LogEvent.warn "S3 redirect not supported with current storage backend"])
  else
    match s3cfg with
    | none => (none, [LogEvent.warn "S3 redirect not supported with current storage backend"])
    | some cfg =>
        match putObject (addS3Redirect.params cfg key destination) with
        | Except.ok out => (some out, [])
        | Except.error _ => (none, [LogEvent.error "unable to add s3 redirect"])

/-- The options literal both `cacheObj` and the upload utility pass to the
Facade: `acl: "public-read"`, `cacheControl: "public, max-age=31536000"`. -/
def cacheObjOptions : UploadOptions :=
  { contentType := none
    cacheControl := some "public, max-age=31536000"
    acl := some "public-read" }

/-- `getCachedObj(filename)`: reads `filename` from the imports bucket via the
Facade (`getFile` oracle; `.error` models a thrown read error) and parses the
bytes (`parse` oracle models `json5.parse`; `none` models a parse throw). The
surrounding try/catch plus the `!buffer` check collapse every failure to
`undefined`. -/
def getCachedObj {α : Type} (getFile : String → String → Except String (Option Buffer))
    (parse : String → Option α) (importsBucket filename : String) : Option α :=
  match getFile importsBucket filename with
  | Except.error _ => none
  | Except.ok none => none
  | Except.ok (some buffer) => parse buffer

/-- `cacheObj(snackObj, filename)`: serializes the descriptor (`stringify`
models `json5.stringify`) and uploads it to the imports bucket with
`cacheObjOptions`. A falsy Facade result raises `Failed to upload file`; the
catch block rethrows every failure as `CacheObj failure: <cause message>`. -/
def cacheObj {α : Type}
    (upload : String → String → Buffer → Option UploadOptions → Except String (Option UploadResult))
    (stringify : α → String) (importsBucket : String) (snackObj : α) (filename : String) :
    Except String Unit :=
  match
    (match upload importsBucket filename (stringify snackObj) (some cacheObjOptions) with
     | Except.error e => Except.error e
     | Except.ok none => Except.error "Failed to upload file"
     | Except.ok (some _) => Except.ok ()) with
  | Except.error e => Except.error ("CacheObj failure: " ++ e)
  | Except.ok _ => Except.ok ()

/-- Boolean substring test: `strContains hay needle` is true when `needle`
occurs contiguously inside `hay`. -/
def strContains (hay needle : String) : Bool :=
  (List.range (hay.length + 1)).any (fun i => needle.data.isPrefixOf (hay.data.drop i))

/-! Concrete provider behaviors and environments used to instantiate the
oracle parameters in witnesses and counterexamples. -/

/-- An environment with no variables set. -/
def environNone : String → Option String := fun _ => none

/-- An environment where only an unrelated variable is set. -/
def environOther : String → Option String :=
  fun v => if v == "SOME_OTHER_VAR" then some "1" else none

/-- An environment where only `NODE_ENV=test` is set. -/
def environTest : String → Option String :=
  fun v => if v == "NODE_ENV" then some "test" else none

/-- A GCS `file.save` oracle that always succeeds. -/
def saveOk : GCSSaveParams → Option Unit := fun _ => some ()

/-- A GCS `file.makePublic` oracle that always succeeds. -/
def makePublicOk : String → String → Option Unit := fun _ _ => some ()

/-- Claim C4: the resolved backend identity is `gcs` exactly when the
`GCS_PROJECT_ID` variable or the `USE_GCS` flag is set (to a truthy,
non-empty value), and `s3` otherwise; no other environment variable
influences the decision. -/
theorem C4_backend_selection :
    (∀ environ : String → Option String,
       (config.storageBackend environ = "gcs" ↔
          (truthy (environ "GCS_PROJECT_ID") = true ∨ truthy (environ "USE_GCS") = true)) ∧
       (config.storageBackend environ = "s3" ↔
          ¬(truthy (environ "GCS_PROJECT_ID") = true ∨ truthy (environ "USE_GCS") = true))) ∧
    (∀ environ environ2 : String → Option String,
       environ "GCS_PROJECT_ID" = environ2 "GCS_PROJECT_ID" →
       environ "USE_GCS" = environ2 "USE_GCS" →
       config.storageBackend environ = config.storageBackend environ2) := by
  constructor
  · intro environ
    cases hg : truthy (environ "GCS_PROJECT_ID") <;>
      cases hu : truthy (environ "USE_GCS") <;>
        simp [config.storageBackend, useGCS, hg, hu]
  · intro environ environ2 h1 h2
    unfold config.storageBackend useGCS
    rw [h1, h2]

/-- Witness for C4: an environment with only an unrelated variable set
resolves to the same backend as the empty environment. -/
theorem C4_backend_selection_witness :
    config.storageBackend environNone = config.storageBackend environOther :=
  C4_backend_selection.2 environNone environOther (by decide) (by decide)

/-- Claim C5: the S3 public URL is
`https://s3-<region>.amazonaws.com/<bucket>/<percent-encoded-key>` and the
GCS public URL is `https://storage.googleapis.com/<bucket>/<percent-encoded-key>`;
for region `us-west-1`, bucket `b`, key `a b.js` the results are the two
concrete URLs with `a%20b.js`. -/
theorem C5_public_url (cfg : S3Config) (bucket key : String) :
    S3StorageClient.getPublicUrl (some cfg) bucket key =
      Except.ok ("https://s3-" ++ cfg.region ++ ".amazonaws.com/" ++ bucket ++ "/" ++
        encodeURIComponent key) ∧
    GCSStorageClient.getPublicUrl bucket key =
      "https://storage.googleapis.com/" ++ bucket ++ "/" ++ encodeURIComponent key ∧
    S3StorageClient.getPublicUrl
        (some { bucket := "b", imports_bucket := "ib", region := "us-west-1" }) "b" "a b.js" =
      Except.ok "https://s3-us-west-1.amazonaws.com/b/a%20b.js" ∧
    GCSStorageClient.getPublicUrl "b" "a b.js" = "https://storage.googleapis.com/b/a%20b.js" :=
  ⟨rfl, rfl, by rfl, by rfl⟩

/-- Claim C9: a successful GCS upload returns a `location` embedding the key
verbatim (no percent-encoding), so for the key `a b.js` the location differs
from the percent-encoded `getPublicUrl` result. -/
theorem C9_gcs_location_verbatim :
    (∀ save makePublic bucket key body options r,
       GCSStorageClient.uploadFile save makePublic bucket key body options = some r →
       r.location = "https://storage.googleapis.com/" ++ bucket ++ "/" ++ key) ∧
    GCSStorageClient.uploadFile saveOk makePublicOk "b" "a b.js" "" none =
      some { location := "https://storage.googleapis.com/b/a b.js", bucket := "b", key := "a b.js" } ∧
    GCSStorageClient.getPublicUrl "b" "a b.js" = "https://storage.googleapis.com/b/a%20b.js" ∧
    ("https://storage.googleapis.com/b/a b.js" : String) ≠
      "https://storage.googleapis.com/b/a%20b.js" := by
  refine ⟨?_, by decide, by decide, by decide⟩
  intro save makePublic bucket key body options r h
  simp only [GCSStorageClient.uploadFile] at h
  split at h
  · exact absurd h (by simp)
  · split at h
    · exact absurd h (by simp)
    · rw [Option.some_inj] at h
      rw [← h]

/-- Witness for C9: the verbatim-location law applied at a concrete
successful upload. -/
theorem C9_gcs_location_verbatim_witness :
    UploadResult.location
        { location := "https://storage.googleapis.com/b/k", bucket := "b", key := "k" } =
      "https://storage.googleapis.com/" ++ "b" ++ "/" ++ "k" :=
  C9_gcs_location_verbatim.1 saveOk makePublicOk "b" "k" "" none
    { location := "https://storage.googleapis.com/b/k", bucket := "b", key := "k" } (by decide)

/-- Claim C10: when a required variable is unset and the process is in test
mode (`NODE_ENV=test`) or CLI mode (`argv[1]` ends in `cli.js`), `env`
resolves to the fallback (`testValue`, or `noop` when none is given) instead
of raising; outside those modes it raises. -/
theorem C10_env_fallback (environ : String → Option String) (argv1 varName : String)
    (testValue : Option String) (hunset : environ varName = none) :
    ((environ "NODE_ENV" = some "test" ∨ argv1.endsWith "cli.js" = true) →
       env environ argv1 varName testValue = Except.ok (testValue.getD "noop")) ∧
    (environ "NODE_ENV" ≠ some "test" → argv1.endsWith "cli.js" = false →
       env environ argv1 varName testValue =
         Except.error ("environment variable " ++ varName ++ " isn\x27t specified")) := by
  constructor
  · intro hmode
    unfold env
    rw [hunset]
    cases hmode with
    | inl h => simp [truthy, h]
    | inr h => simp [truthy, h]
  · intro hne hcli
    unfold env
    rw [hunset]
    simp [truthy, hcli, beq_eq_false_iff_ne.mpr hne]

/-- Witness for C10: with only `NODE_ENV=test` set, a missing `S3_BUCKET`
resolves to `noop`. -/
theorem C10_env_fallback_witness :
    env environTest "/app/src/server.js" "S3_BUCKET" none = Except.ok "noop" :=
  (C10_env_fallback environTest "/app/src/server.js" "S3_BUCKET" none (by decide)).1
    (Or.inl (by decide))

/-- Counterexample to C1: when the `acl` option is omitted, the S3 client
does not fall back to the backend default visibility — it explicitly sends
`ACL: "public-read"` (source: `ACL: options?.acl || "public-read"`), making
the object public. -/
theorem C1_acl_default_counterexample :
    (S3StorageClient.uploadParams "b" "k" "" none).ACL = "public-read" := rfl

/-- Claim C1 (amended): on the GCS client an omitted `acl` yields the backend
default non-public visibility (`public: false` in the save request and no
`makePublic` call, so the result is independent of the `makePublic` oracle),
and only the explicit value `public-read` sets `public: true`; on the S3
client an omitted `acl` instead sends an explicit `public-read` ACL. -/
theorem C1_acl_default :
    (∀ bucket key body (options : Option UploadOptions),
       options.bind UploadOptions.acl = none →
       (GCSStorageClient.saveParams bucket key body options).isPublic = false) ∧
    (∀ save mp mp2 bucket key body (options : Option UploadOptions),
       options.bind UploadOptions.acl ≠ some "public-read" →
       GCSStorageClient.uploadFile save mp bucket key body options =
         GCSStorageClient.uploadFile save mp2 bucket key body options) ∧
    (∀ bucket key body (options : Option UploadOptions),
       options.bind UploadOptions.acl = some "public-read" →
       (GCSStorageClient.saveParams bucket key body options).isPublic = true) ∧
    (∀ bucket key body (options : Option UploadOptions),
       options.bind UploadOptions.acl = none →
       (S3StorageClient.uploadParams bucket key body options).ACL = "public-read") := by
  refine ⟨?_, ?_, ?_, ?_⟩
  · intro bucket key body options h
    simp [GCSStorageClient.saveParams, h]
  · intro save mp mp2 bucket key body options h
    unfold GCSStorageClient.uploadFile
    rw [beq_eq_false_iff_ne.mpr h]
    simp
  · intro bucket key body options h
    simp [GCSStorageClient.saveParams, h]
  · intro bucket key body options h
    simp [S3StorageClient.uploadParams, jsOr, h]

/-- Witness for C1 (amended): a GCS upload with no options requests
`public: false`. -/
theorem C1_acl_default_witness :
    (GCSStorageClient.saveParams "b" "k" "" none).isPublic = false :=
  C1_acl_default.1 "b" "k" "" none rfl

/-- A Facade upload that reports absence (`undefined`) without raising. -/
def uploadAbsent : String → String → Buffer → Option UploadOptions →
    Except String (Option UploadResult) :=
  fun _ _ _ _ => Except.ok none

/-- A serializer for the concrete descriptor type `Nat` used in fixtures. -/
def stringify7 : Nat → String := fun _ => "7"

/-- Counterexample to C2: with a write-failing client and filename `x.json`,
`cacheObj` raises `CacheObj failure: Failed to upload file` — a message that
does not contain the filename (the filename goes to the log only). -/
theorem C2_cacheObj_raises_counterexample :
    cacheObj uploadAbsent stringify7 "imports" 0 "x.json" =
      Except.error "CacheObj failure: Failed to upload file" ∧
    strContains "CacheObj failure: Failed to upload file" "x.json" = false :=
  ⟨rfl, by decide⟩

/-- Claim C2 (amended): whenever the underlying write fails — the Facade
raises, or returns absent — `cacheObj` raises, with message
`CacheObj failure: ` followed by the cause message (`Failed to upload file`
for an absent result); the message does not in general contain the
filename. -/
theorem C2_cacheObj_raises {α : Type}
    (upload : String → String → Buffer → Option UploadOptions →
      Except String (Option UploadResult))
    (stringify : α → String) (importsBucket : String) (snackObj : α) (filename : String) :
    (upload importsBucket filename (stringify snackObj) (some cacheObjOptions) =
        Except.ok none →
       cacheObj upload stringify importsBucket snackObj filename =
         Except.error ("CacheObj failure: " ++ "Failed to upload file")) ∧
    (∀ e, upload importsBucket filename (stringify snackObj) (some cacheObjOptions) =
        Except.error e →
       cacheObj upload stringify importsBucket snackObj filename =
         Except.error ("CacheObj failure: " ++ e)) := by
  constructor
  · intro h
    unfold cacheObj
    rw [h]
  · intro e h
    unfold cacheObj
    rw [h]

/-- Witness for C2 (amended): the write-failing client makes `cacheObj`
raise with the `CacheObj failure` message. -/
theorem C2_cacheObj_raises_witness :
    cacheObj uploadAbsent stringify7 "imports" 1 "y.json" =
      Except.error ("CacheObj failure: " ++ "Failed to upload file") :=
  (C2_cacheObj_raises uploadAbsent stringify7 "imports" 1 "y.json").1 rfl

/-- An S3 upload oracle whose response carries backend-transformed
`Bucket`/`Key` fields. -/
def s3RespondsTransformed : S3UploadParams → Option S3UploadResponse :=
  fun _ => some { Location := "L", Bucket := "bx", Key := "kx" }

/-- Counterexample to C3: the S3 client copies `Bucket`/`Key` from the
provider response object, so a backend that returns transformed values makes
the successful `UploadResult` differ from the caller arguments `b`/`k`. -/
theorem C3_result_echo_counterexample :
    S3StorageClient.uploadFile s3RespondsTransformed "b" "k" "" none =
      some { location := "L", bucket := "bx", key := "kx" } ∧
    ("bx" : String) ≠ "b" :=
  ⟨rfl, by decide⟩

/-- Claim C3 (amended): the GCS client always echoes the caller input bucket
and key in a successful `UploadResult`; the S3 client instead copies the
`Bucket`/`Key` fields of the provider response, which equal the caller input
only when the provider echoes them. -/
theorem C3_result_echo :
    (∀ save mp bucket key body options r,
       GCSStorageClient.uploadFile save mp bucket key body options = some r →
       r.bucket = bucket ∧ r.key = key) ∧
    (∀ s3upload bucket key body options resp,
       s3upload (S3StorageClient.uploadParams bucket key body options) = some resp →
       S3StorageClient.uploadFile s3upload bucket key body options =
         some { location := resp.Location, bucket := resp.Bucket, key := resp.Key }) := by
  constructor
  · intro save mp bucket key body options r h
    simp only [GCSStorageClient.uploadFile] at h
    split at h
    · exact absurd h (by simp)
    · split at h
      · exact absurd h (by simp)
      · rw [Option.some_inj] at h
        rw [← h]
        exact ⟨rfl, rfl⟩
  · intro s3upload bucket key body options resp h
    unfold S3StorageClient.uploadFile
    rw [h]

/-- Witness for C3 (amended): a concrete successful GCS upload echoes the
caller bucket and key. -/
theorem C3_result_echo_witness :
    UploadResult.bucket
        { location := "https://storage.googleapis.com/b/k", bucket := "b", key := "k" } = "b" ∧
    UploadResult.key
        { location := "https://storage.googleapis.com/b/k", bucket := "b", key := "k" } = "k" :=
  C3_result_echo.1 saveOk makePublicOk "b" "k" "" none
    { location := "https://storage.googleapis.com/b/k", bucket := "b", key := "k" } (by decide)

/-- A Facade read that raises. -/
def getFileErr : String → String → Except String (Option Buffer) :=
  fun _ _ => Except.error "boom"

/-- A parser (for descriptor type `Nat`) that always fails, modelling
`json5.parse` throwing on corrupt bytes. -/
def parseFail : String → Option Nat := fun _ => none

/-- Claim C6: `getCachedObj` never raises (its result type is `Option`, every
throw in the source being caught); a missing object, a failing read and a
failing deserialization all produce the same `none` result. -/
theorem C6_getCachedObj_absent {α : Type}
    (getFile : String → String → Except String (Option Buffer))
    (parse : String → Option α) (importsBucket filename : String) :
    (∀ e, getFile importsBucket filename = Except.error e →
       getCachedObj getFile parse importsBucket filename = none) ∧
    (getFile importsBucket filename = Except.ok none →
       getCachedObj getFile parse importsBucket filename = none) ∧
    (∀ s, getFile importsBucket filename = Except.ok (some s) → parse s = none →
       getCachedObj getFile parse importsBucket filename = none) := by
  refine ⟨?_, ?_, ?_⟩
  · intro e h
    unfold getCachedObj
    rw [h]
  · intro h
    unfold getCachedObj
    rw [h]
  · intro s h hp
    unfold getCachedObj
    rw [h]
    exact hp

/-- Witness for C6: a raising read yields `none`. -/
theorem C6_getCachedObj_absent_witness :
    getCachedObj getFileErr parseFail "imports" "x.json" = none :=
  (C6_getCachedObj_absent getFileErr parseFail "imports" "x.json").1 "boom" rfl

/-- A Facade upload that succeeds with a fixed result. -/
def uploadOkL : String → String → Buffer → Option UploadOptions →
    Except String (Option UploadResult) :=
  fun _ _ _ _ => Except.ok (some { location := "L", bucket := "b", key := "k" })

/-- A Facade read that returns the bytes `7`. -/
def getFile7 : String → String → Except String (Option Buffer) :=
  fun _ _ => Except.ok (some "7")

/-- A parser (for descriptor type `Nat`) recognizing exactly the bytes `7`. -/
def parse7 : String → Option Nat := fun s => if s = "7" then some 7 else none

/-- Claim C7: for a serializable descriptor (one the serialization
round-trips) and a correctly behaving storage (the write succeeds and the
subsequent read returns the written bytes), `cacheObj` succeeds and
`getCachedObj` returns a descriptor equal to the original. -/
theorem C7_cache_roundtrip {α : Type}
    (upload : String → String → Buffer → Option UploadOptions →
      Except String (Option UploadResult))
    (getFile : String → String → Except String (Option Buffer))
    (stringify : α → String) (parse : String → Option α)
    (importsBucket filename : String) (snackObj : α) (r : UploadResult)
    (hser : parse (stringify snackObj) = some snackObj)
    (hwrite : upload importsBucket filename (stringify snackObj) (some cacheObjOptions) =
      Except.ok (some r))
    (hread : getFile importsBucket filename = Except.ok (some (stringify snackObj))) :
    cacheObj upload stringify importsBucket snackObj filename = Except.ok () ∧
    getCachedObj getFile parse importsBucket filename = some snackObj := by
  constructor
  · unfold cacheObj
    rw [hwrite]
  · unfold getCachedObj
    rw [hread]
    exact hser

/-- Witness for C7: the round trip at a concrete descriptor, serializer and
correctly behaving client. -/
theorem C7_cache_roundtrip_witness :
    cacheObj uploadOkL stringify7 "imports" 7 "x.json" = Except.ok () ∧
    getCachedObj getFile7 parse7 "imports" "x.json" = some 7 :=
  C7_cache_roundtrip uploadOkL getFile7 stringify7 parse7 "imports" "x.json" 7
    { location := "L", bucket := "b", key := "k" } (by decide) rfl rfl

/-- An `s3.putObject` oracle that succeeds with a fixed acknowledgment. -/
def putObjectOk : PutObjectParams → Except String S3PutObjectOutput :=
  fun _ => Except.ok { ETag := some "etag" }

/-- A concrete `config.s3` section. -/
def cfgB : S3Config := { bucket := "b", imports_bucket := "ib", region := "us-west-1" }

/-- Claim C8: `addS3Redirect` never raises (it is total); on a non-S3 backend
it logs a warning and returns absent; on the S3 backend it sends a
zero-length object at `key` with website-redirect `/destination`,
cache-control `no-cache` and public-read visibility, returning the provider
acknowledgment on success and absent (after an error log) on provider
failure. -/
theorem C8_addS3Redirect (putObject : PutObjectParams → Except String S3PutObjectOutput)
    (backend : String) (cfg : S3Config) (key destination : String) :
    (backend ≠ "s3" →
       addS3Redirect putObject backend (some cfg) key destination =
         (none, [LogEvent.warn "S3 redirect not supported with current storage backend"])) ∧
    (addS3Redirect putObject "s3" none key destination =
       (none, [LogEvent.warn "S3 redirect not supported with current storage backend"])) ∧
    ((addS3Redirect.params cfg key destination).Bucket = cfg.bucket ∧
     (addS3Redirect.params cfg key destination).Key = key ∧
     (addS3Redirect.params cfg key destination).Body = "" ∧
     (addS3Redirect.params cfg key destination).ACL = "public-read" ∧
     (addS3Redirect.params cfg key destination).CacheControl = "no-cache" ∧
     (addS3Redirect.params cfg key destination).WebsiteRedirectLocation = "/" ++ destination) ∧
    (∀ out, putObject (addS3Redirect.params cfg key destination) = Except.ok out →
       addS3Redirect putObject "s3" (some cfg) key destination = (some out, [])) ∧
    (∀ e, putObject (addS3Redirect.params cfg key destination) = Except.error e →
       addS3Redirect putObject "s3" (some cfg) key destination =
         (none, [LogEvent.error "unable to add s3 redirect"])) := by
  refine ⟨?_, ?_, ⟨rfl, rfl, rfl, rfl, rfl, rfl⟩, ?_, ?_⟩
  · intro h
    unfold addS3Redirect
    simp [bne_iff_ne, h]
  · rfl
  · intro out h
    unfold addS3Redirect
    simp only [bne_self_eq_false, Bool.false_or]
    rw [show ((some cfg == (none : Option S3Config)) = false) from rfl]
    simp [h]
  · intro e h
    unfold addS3Redirect
    simp only [bne_self_eq_false, Bool.false_or]
    rw [show ((some cfg == (none : Option S3Config)) = false) from rfl]
    simp [h]

/-- Witness for C8: on a GCS backend the redirect utility warns and returns
absent. -/
theorem C8_addS3Redirect_witness :
    addS3Redirect putObjectOk "gcs" (some cfgB) "k" "d" =
      (none, [LogEvent.warn "S3 redirect not supported with current storage backend"]) :=
  (C8_addS3Redirect putObjectOk "gcs" cfgB "k" "d").1 (by decide)
